import Mathlib

/-!
Verification of the order-construction and validation core of the
healthy-meal multi-tenant ordering platform.

Part 1 embeds the client-side selection draft
(`src/app/customer/services/order-draft.service.ts`).
Part 2 embeds the server-side order module
(order service, order model, notification model).
-/

namespace Draft

/-- Frontend meal record; the draft only reads the nutrition fields. -/
structure Meal where
  id : Nat
  name : String
  calories : Int
  proteinGrams : Int
  carbsGrams : Int
deriving DecidableEq

/-- One protein/carb pair slot (`MealSelection` in the source). -/
structure MealSelection where
  protein : Option Meal
  carb : Option Meal
deriving DecidableEq

/-- The mutable fields of `OrderDraftService`. -/
structure OrderDraftState where
  selections : List MealSelection
  selectedSnack : Option Meal
  snackSkipped : Bool
deriving DecidableEq

/-- The service's fields at construction time: empty selections, no snack. -/
def initial : OrderDraftState :=
  { selections := [], selectedSnack := none, snackSkipped := false }

/-- `initSelections(mealsPerDay)`: allocate `mealsPerDay` empty slots. -/
def initSelections (mealsPerDay : Nat) (s : OrderDraftState) : OrderDraftState :=
  { s with selections := List.replicate mealsPerDay { protein := none, carb := none } }

/-- `reset()`: clear selections, snack and the skipped flag. -/
def reset (_s : OrderDraftState) : OrderDraftState :=
  { selections := [], selectedSnack := none, snackSkipped := false }

/-- `setProtein(index, meal)`: when slot `index` exists, set its protein to
`meal` and clear its carb (`this.selections[index].carb = null`). -/
def setProtein (index : Nat) (meal : Meal) (s : OrderDraftState) : OrderDraftState :=
  if index < s.selections.length then
    { s with selections := s.selections.set index { protein := some meal, carb := none } }
  else s

/-- `setCarb(index, meal)`: when slot `index` exists, set its carb to `meal`,
keeping the protein. -/
def setCarb (index : Nat) (meal : Meal) (s : OrderDraftState) : OrderDraftState :=
  match s.selections[index]? with
  | some sel => { s with selections := s.selections.set index { sel with carb := some meal } }
  | none => s

/-- `get isOrderComplete()`: every slot has both protein and carb set; the
snack fields are not read at all. -/
def isOrderComplete (s : OrderDraftState) : Bool :=
  s.selections.all fun m => m.protein.isSome && m.carb.isSome

end Draft

section DraftTheorems

open Draft

/-- C5: for every slot index `i` within the allocated slots and every prior
slot contents (including a previously chosen carb), `setProtein i X` sets
slot `i`'s protein to `X` and its carb to `null`, and touches no other slot
and no snack field. -/
theorem setProtein_sets_protein_clears_carb
    (s : OrderDraftState) (i : Nat) (X : Meal)
    (h : i < s.selections.length) :
    (setProtein i X s).selections[i]? = some { protein := some X, carb := none } ∧
    (∀ j, j ≠ i → (setProtein i X s).selections[j]? = s.selections[j]?) ∧
    (setProtein i X s).selectedSnack = s.selectedSnack ∧
    (setProtein i X s).snackSkipped = s.snackSkipped := by
  unfold setProtein
  rw [if_pos h]
  refine ⟨?_, ?_, rfl, rfl⟩
  · simpa using List.getElem?_set_self (a := { protein := some X, carb := none })
      (l := s.selections) h
  · intro j hj
    simpa using List.getElem?_set_ne (l := s.selections)
      (a := { protein := some X, carb := none }) (Ne.symm hj)

def mealA : Meal :=
  { id := 1, name := "grilled chicken", calories := 320, proteinGrams := 45, carbsGrams := 2 }

def mealB : Meal :=
  { id := 2, name := "brown rice", calories := 210, proteinGrams := 5, carbsGrams := 44 }

def mealC : Meal :=
  { id := 3, name := "salmon", calories := 280, proteinGrams := 39, carbsGrams := 0 }

/-- A two-slot draft whose slot 0 already has both a protein and a carb. -/
def draftWithCarb : OrderDraftState :=
  { selections := [{ protein := some mealA, carb := some mealB },
                   { protein := none, carb := none }],
    selectedSnack := none, snackSkipped := false }

/-- Witness for C5 at a concrete draft: slot 0 had carb `mealB`; after
`setProtein 0 mealC` its protein is `mealC`, its carb is cleared, and slot 1
is untouched. -/
theorem setProtein_sets_protein_clears_carb_witness :
    0 < draftWithCarb.selections.length ∧
    (setProtein 0 mealC draftWithCarb).selections[0]? =
      some { protein := some mealC, carb := none } ∧
    (setProtein 0 mealC draftWithCarb).selections[1]? = draftWithCarb.selections[1]? :=
  ⟨by decide,
    (setProtein_sets_protein_clears_carb draftWithCarb 0 mealC (by decide)).1,
    (setProtein_sets_protein_clears_carb draftWithCarb 0 mealC (by decide)).2.1 1 (by decide)⟩

/-- C6: for a draft whose allocated slot count is `n ∈ {1,2,3,4,5}`,
`isOrderComplete` is true iff every slot has both protein and carb set, and
the snack selection and `snackSkipped` flag have no effect on it. -/
theorem isOrderComplete_iff_all_slots
    (s : OrderDraftState) (n : Nat)
    (h1 : 1 ≤ n) (h2 : n ≤ 5) (h3 : s.selections.length = n) :
    (isOrderComplete s = true ↔
      ∀ sel ∈ s.selections, sel.protein.isSome = true ∧ sel.carb.isSome = true) ∧
    ∀ snack skipped,
      isOrderComplete
        { selections := s.selections, selectedSnack := snack, snackSkipped := skipped } =
      isOrderComplete s := by
  constructor
  · simp [isOrderComplete, List.all_eq_true]
  · intro snack skipped
    rfl

/-- A fully selected two-slot draft. -/
def completeDraft : OrderDraftState :=
  { selections := [{ protein := some mealA, carb := some mealB },
                   { protein := some mealC, carb := some mealB }],
    selectedSnack := none, snackSkipped := false }

/-- Witness for C6 at a concrete two-slot draft: completeness holds when all
slots are filled and is unchanged by snack state. -/
theorem isOrderComplete_iff_all_slots_witness :
    (1 ≤ 2 ∧ 2 ≤ 5 ∧ completeDraft.selections.length = 2) ∧
    isOrderComplete completeDraft = true ∧
    isOrderComplete { selections := completeDraft.selections,
                      selectedSnack := some mealC, snackSkipped := true } =
      isOrderComplete completeDraft :=
  ⟨by decide,
    (isOrderComplete_iff_all_slots completeDraft 2 (by decide) (by decide) rfl).1.mpr
      (by decide),
    (isOrderComplete_iff_all_slots completeDraft 2 (by decide) (by decide) rfl).2
      (some mealC) true⟩

/-- C9: a reset (or never-initialized) draft has an empty `selections` array,
and `isOrderComplete` is vacuously `true` on it, so a guard of the form
"redirect unless `isOrderComplete`" does not protect against an empty draft. -/
theorem reset_draft_vacuously_complete (s : OrderDraftState) :
    (reset s).selections = [] ∧
    isOrderComplete (reset s) = true ∧
    initial.selections = [] ∧
    isOrderComplete initial = true :=
  ⟨rfl, rfl, rfl, rfl⟩

end DraftTheorems

namespace Server

/-- Mongo user document fields used by the order module
(`user.model`: `_id`, `restaurantId`, `role`). -/
structure User where
  id : Nat
  restaurantId : Nat
  role : String
deriving DecidableEq

/-- Subscription document (`subscription.model`): plan and daily macro
targets; fields not read by the order module are omitted. -/
structure Subscription where
  id : Nat
  restaurantId : Nat
  customerId : Nat
  mealsPerDay : Nat
  includesSnack : Bool
  macrosProteinGrams : Int
  macrosCarbsGrams : Int
  status : String
deriving DecidableEq

/-- A stored meal snapshot inside an order (`order.model` selections
sub-document). -/
structure MealSnap where
  mealId : Option Nat
  name : String
  calories : Int
  proteinGrams : Int
  carbsGrams : Int
deriving DecidableEq

/-- One `{proteinMeal, carbMeal}` pair of an order's `selections` array. -/
structure Selection where
  proteinMeal : Option MealSnap
  carbMeal : Option MealSnap
deriving DecidableEq

/-- An order's `totals` sub-document. -/
structure Totals where
  calories : Int
  proteinGrams : Int
  carbsGrams : Int
deriving DecidableEq

/-- An order's `macroTargets` sub-document; both fields are optional in the
schema, and `{ protein := none, carb := none }` plays the role of the empty
object `\x7b\x7d` assigned by `orderData.macroTargets || \x7b\x7d`. -/
structure MacroTargets where
  proteinGrams : Option Int
  carbsGrams : Option Int
deriving DecidableEq

/-- Order document (`order.model`). -/
structure Order where
  id : Nat
  restaurantId : Nat
  customerId : Nat
  orderNumber : String
  orderDate : String
  status : String
  selections : List Selection
  snackMeal : Option MealSnap
  totals : Totals
  macroTargets : MacroTargets
  notes : String
deriving DecidableEq

/-- Notification document (`notification.model`). The schema has no unique
index on `(orderId, type)`; only non-unique query indexes exist. -/
structure Notification where
  id : Nat
  restaurantId : Nat
  customerId : Nat
  orderId : Nat
  type : String
  message : String
  isRead : Bool
deriving DecidableEq

/-- The store: one list per collection, in creation (`createdAt`) order —
new documents are appended at the end. -/
structure Db where
  users : List User
  subscriptions : List Subscription
  orders : List Order
  notifications : List Notification
deriving DecidableEq

/-- The request body of `POST /api/orders` (`req.body` as read by
`orderService.createOrder` plus the wire contract's `orderDate`, which the
service never reads). -/
structure OrderData where
  orderDate : Option String
  selections : List Selection
  snackMeal : Option MealSnap
  totals : Totals
  macroTargets : Option MacroTargets
  notes : Option String
deriving DecidableEq

/-- Errors thrown by `order.service`:
`invalidCustomer` = "عميل غير صالح", `invalidStatus` = "حالة غير صالحة",
`notFound` = "طلب غير موجود". -/
inductive Err where
  | invalidCustomer
  | invalidStatus
  | notFound
deriving DecidableEq

/-- `s.replace(/[^\d]/g, "")`: keep only the digit characters. -/
def stripNonDigits (s : String) : String :=
  String.mk (s.toList.filter Char.isDigit)

/-- `String.prototype.padStart(4, "0")`. -/
def padStart4 (s : String) : String :=
  if 4 ≤ s.length then s
  else String.mk (List.replicate (4 - s.length) '0') ++ s

/-- `Order.generateOrderNumber(restaurantId)`: take the restaurant's most
recently created order (`sort(\x7bcreatedAt: -1\x7d).findOne`, i.e. the last
element of the filtered list), extract the digits of its `orderNumber`, add
one and pad to four digits. Order numbers created by the system always
contain digits, so `parseInt`'s NaN branch is unreachable on system-created
data; `toNat?.getD 0` covers the same inputs. -/
def generateOrderNumber (restaurantId : Nat) (orders : List Order) : String :=
  match (orders.filter fun o => o.restaurantId == restaurantId).getLast? with
  | none => "ORD0001#"
  | some lastOrder =>
      let lastNumber := (stripNonDigits lastOrder.orderNumber).toNat?.getD 0
      "ORD" ++ padStart4 (toString (lastNumber + 1)) ++ "#"

/-- A fresh `_id` for a newly created document. -/
def freshId (ids : List Nat) : Nat :=
  ids.foldr max 0 + 1

/-- `orderService.createOrder(customerId, restaurantId, orderData)`.
`today` stands for the server-computed
`new Date().toISOString().split("T")[0]` (the current UTC date as
YYYY-MM-DD). The function validates the customer, generates an order
number, and persists — with no duplicate-order check, no subscription/plan
check, and `macroTargets` taken from the request body. -/
def createOrder (customerId restaurantId : Nat) (orderData : OrderData)
    (today : String) (db : Db) : Except Err (Order × Db) :=
  match db.users.find? (fun u =>
      u.id == customerId && u.restaurantId == restaurantId && u.role == "customer") with
  | none => .error .invalidCustomer
  | some _ =>
      let orderNumber := generateOrderNumber restaurantId db.orders
      let order : Order :=
        { id := freshId (db.orders.map fun o => o.id)
          restaurantId := restaurantId
          customerId := customerId
          orderNumber := orderNumber
          orderDate := today
          status := "received"
          selections := orderData.selections
          snackMeal := orderData.snackMeal
          totals := orderData.totals
          macroTargets := orderData.macroTargets.getD
            { proteinGrams := none, carbsGrams := none }
          notes := orderData.notes.getD "" }
      .ok (order, { db with orders := db.orders ++ [order] })

/-- Replace the first element satisfying `p` (the document matched by
`findOneAndUpdate`). -/
def updateFirst (p : α → Bool) (f : α → α) : List α → List α
  | [] => []
  | x :: xs => if p x then f x :: xs else x :: updateFirst p f xs

def validStatuses : List String := ["received", "preparing", "ready", "completed"]

/-- `orderService.updateOrderStatus(orderId, restaurantId, newStatus)`:
validate the status value, then `findOneAndUpdate(\x7b_id, restaurantId\x7d,
\x7bstatus\x7d)`; `null` result throws `notFound`. No comparison with the
current status is made. -/
def updateOrderStatus (orderId restaurantId : Nat) (newStatus : String)
    (db : Db) : Except Err (Order × Db) :=
  if !(validStatuses.contains newStatus) then .error .invalidStatus
  else
    match db.orders.find? (fun o => o.id == orderId && o.restaurantId == restaurantId) with
    | none => .error .notFound
    | some o =>
        .ok ({ o with status := newStatus },
          { db with orders :=
              (updateFirst
                (fun x => x.id == orderId && x.restaurantId == restaurantId)
                (fun x => { x with status := newStatus }) db.orders) })

/-- The result record of `sendReadyNotification`. -/
structure NotifyResult where
  alreadyNotified : Bool
  notification : Notification
deriving DecidableEq

/-- `orderService.sendReadyNotification(orderId, restaurantId)`: find the
order under the tenant filter `\x7b_id, restaurantId\x7d`; look up an
existing notification for `(orderId, order.customerId, "order_ready")`; if
present return `alreadyNotified: true` without writing, else create one. -/
def sendReadyNotification (orderId restaurantId : Nat) (db : Db) :
    Except Err (NotifyResult × Db) :=
  match db.orders.find? (fun o => o.id == orderId && o.restaurantId == restaurantId) with
  | none => .error .notFound
  | some order =>
      match db.notifications.find? (fun n =>
          n.orderId == orderId && n.customerId == order.customerId
            && n.type == "order_ready") with
      | some existing => .ok ({ alreadyNotified := true, notification := existing }, db)
      | none =>
          let notification : Notification :=
            { id := freshId (db.notifications.map fun n => n.id)
              restaurantId := restaurantId
              customerId := order.customerId
              orderId := orderId
              type := "order_ready"
              message := "طلبك " ++ order.orderNumber ++ " جاهز للاستلام! 🎉"
              isRead := false }
          .ok ({ alreadyNotified := false, notification := notification },
            { db with notifications := db.notifications ++ [notification] })

/-- Number of stored notifications for `(orderId, kind = order_ready)`. -/
def readyNotifCount (orderId : Nat) (db : Db) : Nat :=
  (db.notifications.filter fun n => n.orderId == orderId && n.type == "order_ready").length

/-- The store after an `updateOrderStatus` request: a thrown error aborts the
handler before any write. -/
def dbAfterUpdateStatus (orderId restaurantId : Nat) (newStatus : String) (db : Db) : Db :=
  match updateOrderStatus orderId restaurantId newStatus db with
  | .ok (_, db2) => db2
  | .error _ => db

/-- The store after a `sendReadyNotification` request: a thrown error aborts
the handler before any write. -/
def dbAfterNotify (orderId restaurantId : Nat) (db : Db) : Db :=
  match sendReadyNotification orderId restaurantId db with
  | .ok (_, db2) => db2
  | .error _ => db

end Server

section ServerTheorems

open Server

/-- Position of a status in the lifecycle `received → preparing → ready →
completed`. -/
def statusRank : String → Nat
  | "received" => 0
  | "preparing" => 1
  | "ready" => 2
  | "completed" => 3
  | _ => 4

def cust1 : Server.User := { id := 1, restaurantId := 1, role := "customer" }

def snapChicken : MealSnap :=
  { mealId := some 11, name := "chicken", calories := 320, proteinGrams := 45, carbsGrams := 2 }

def snapRice : MealSnap :=
  { mealId := some 12, name := "rice", calories := 210, proteinGrams := 5, carbsGrams := 44 }

def selA : Selection := { proteinMeal := some snapChicken, carbMeal := some snapRice }

/-- An active subscription for customer 1 at restaurant 1: two meals per
day, daily targets 100 g protein / 200 g carbs. -/
def sub1 : Subscription :=
  { id := 1, restaurantId := 1, customerId := 1, mealsPerDay := 2, includesSnack := false,
    macrosProteinGrams := 100, macrosCarbsGrams := 200, status := "active" }

def totalsA : Totals := { calories := 1060, proteinGrams := 100, carbsGrams := 92 }

/-- A well-formed submission for `sub1`: two selections, macro targets
echoing the subscription. -/
def odC1 : OrderData :=
  { orderDate := some "2026-02-03", selections := [selA, selA], snackMeal := none,
    totals := totalsA,
    macroTargets := some { proteinGrams := some 100, carbsGrams := some 200 },
    notes := none }

def dbC1 : Db := { users := [cust1], subscriptions := [sub1], orders := [], notifications := [] }

/-- Store after the first submission. -/
def dbC1After1 : Db :=
  match createOrder 1 1 odC1 "2026-02-03" dbC1 with
  | .ok (_, db2) => db2
  | .error _ => dbC1

/-- Store after re-submitting the identical order. -/
def dbC1After2 : Db :=
  match createOrder 1 1 odC1 "2026-02-03" dbC1After1 with
  | .ok (_, db2) => db2
  | .error _ => dbC1After1

/-- C1: `createOrder` has no duplicate-submission guard.  A second
submission for the same `(tenantId, customerId, orderDate)` tuple is also
accepted, and two orders for the tuple are persisted — the documented
`OrderAlreadyExists` (409) rejection never happens and the schema's
`(restaurantId, customerId, orderDate)` index is not unique. -/
theorem createOrder_accepts_duplicate_submission :
    (createOrder 1 1 odC1 "2026-02-03" dbC1).isOk = true ∧
    (dbC1After1.orders.filter fun o =>
      o.restaurantId == 1 && o.customerId == 1 && o.orderDate == "2026-02-03").length = 1 ∧
    (createOrder 1 1 odC1 "2026-02-03" dbC1After1).isOk = true ∧
    (dbC1After2.orders.filter fun o =>
      o.restaurantId == 1 && o.customerId == 1 && o.orderDate == "2026-02-03").length = 2 :=
  ⟨rfl, rfl, rfl, rfl⟩

/-- A submission with three selections against `sub1`'s two-meal plan. -/
def odC2 : OrderData :=
  { orderDate := some "2026-02-03", selections := [selA, selA, selA], snackMeal := none,
    totals := totalsA,
    macroTargets := some { proteinGrams := some 100, carbsGrams := some 200 },
    notes := none }

/-- The order `createOrder` builds from `odC2` on the empty store. -/
def orderC2 : Server.Order :=
  { id := 1, restaurantId := 1, customerId := 1, orderNumber := "ORD0001#",
    orderDate := "2026-02-03", status := "received", selections := [selA, selA, selA],
    snackMeal := none, totals := totalsA,
    macroTargets := { proteinGrams := some 100, carbsGrams := some 200 }, notes := "" }

/-- C2: `createOrder` never reads the subscription, so a submission whose
`selections.length` (3) differs from the plan's `mealsPerDay` (2) is
accepted and persisted instead of being rejected with `PlanMismatch`. -/
theorem createOrder_accepts_plan_mismatch :
    sub1 ∈ dbC1.subscriptions ∧
    sub1.customerId = 1 ∧ sub1.status = "active" ∧ sub1.mealsPerDay = 2 ∧
    odC2.selections.length = 3 ∧
    createOrder 1 1 odC2 "2026-02-03" dbC1 =
      .ok (orderC2, { dbC1 with orders := [orderC2] }) ∧
    orderC2.selections.length = 3 :=
  ⟨by decide, rfl, rfl, rfl, rfl, rfl, rfl⟩

/-- A submission whose body carries macro targets that differ from the
subscription's daily targets. -/
def odC7 : OrderData :=
  { orderDate := some "2026-02-03", selections := [selA, selA], snackMeal := none,
    totals := totalsA,
    macroTargets := some { proteinGrams := some 999, carbsGrams := some 888 },
    notes := none }

/-- The order `createOrder` builds from `odC7` on the empty store. -/
def orderC7 : Server.Order :=
  { id := 1, restaurantId := 1, customerId := 1, orderNumber := "ORD0001#",
    orderDate := "2026-02-03", status := "received", selections := [selA, selA],
    snackMeal := none, totals := totalsA,
    macroTargets := { proteinGrams := some 999, carbsGrams := some 888 }, notes := "" }

/-- C7: the persisted `macroTargets` is whatever the client supplied
(`orderData.macroTargets || empty`), not a snapshot of the subscription's
daily targets: with subscription targets 100/200 the stored value is the
client's 999/888. -/
theorem createOrder_macro_targets_from_client :
    sub1 ∈ dbC1.subscriptions ∧
    sub1.macrosProteinGrams = 100 ∧ sub1.macrosCarbsGrams = 200 ∧
    createOrder 1 1 odC7 "2026-02-03" dbC1 =
      .ok (orderC7, { dbC1 with orders := [orderC7] }) ∧
    orderC7.macroTargets = { proteinGrams := some 999, carbsGrams := some 888 } ∧
    orderC7.macroTargets ≠
      { proteinGrams := some sub1.macrosProteinGrams,
        carbsGrams := some sub1.macrosCarbsGrams } :=
  ⟨by decide, rfl, rfl, rfl, rfl, by decide⟩

/-- An order already in the terminal state `completed`. -/
def orderC8 : Server.Order :=
  { id := 1, restaurantId := 1, customerId := 1, orderNumber := "ORD0001#",
    orderDate := "2026-02-03", status := "completed", selections := [selA, selA],
    snackMeal := none, totals := totalsA,
    macroTargets := { proteinGrams := none, carbsGrams := none }, notes := "" }

def dbC8 : Db :=
  { users := [cust1], subscriptions := [sub1], orders := [orderC8], notifications := [] }

/-- Counterexample to C8: an order in state `completed` is set back to
`received` — the update is accepted and the stored status moves strictly
backward in the lifecycle. -/
theorem updateOrderStatus_backward_accepted :
    orderC8.status = "completed" ∧
    updateOrderStatus 1 1 "received" dbC8 =
      .ok ({ orderC8 with status := "received" },
        { dbC8 with orders := [{ orderC8 with status := "received" }] }) ∧
    statusRank "received" < statusRank orderC8.status :=
  ⟨rfl, rfl, by decide⟩

/-- C8 (amended): `updateOrderStatus` accepts any of the four status values
regardless of the order's current status — including strictly earlier ones —
and stores exactly the requested status. -/
theorem updateOrderStatus_accepts_any_valid_status
    (orderId restaurantId : Nat) (newStatus : String) (db : Db) (o : Server.Order)
    (hval : validStatuses.contains newStatus = true)
    (hfind : db.orders.find?
      (fun x => x.id == orderId && x.restaurantId == restaurantId) = some o) :
    ∃ db2, updateOrderStatus orderId restaurantId newStatus db =
      .ok ({ o with status := newStatus }, db2) := by
  refine ⟨{ db with orders :=
      (updateFirst (fun x => x.id == orderId && x.restaurantId == restaurantId)
        (fun x => { x with status := newStatus }) db.orders) }, ?_⟩
  unfold updateOrderStatus
  rw [hval]
  simp [hfind]

/-- Witness for the amended C8 at a concrete input: the `completed` order
`orderC8` is moved to `received`. -/
theorem updateOrderStatus_accepts_any_valid_status_witness :
    validStatuses.contains "received" = true ∧
    dbC8.orders.find? (fun x => x.id == 1 && x.restaurantId == 1) = some orderC8 ∧
    ∃ db2, updateOrderStatus 1 1 "received" dbC8 =
      .ok ({ orderC8 with status := "received" }, db2) :=
  ⟨by decide, by decide,
    updateOrderStatus_accepts_any_valid_status 1 1 "received" dbC8 orderC8
      (by decide) (by decide)⟩

/-- C4: when every stored order with the requested id belongs to a tenant
other than `ridA`, both a status update and a ready notification issued
with tenant `ridA`'s context fail with `notFound`, write nothing, and the
outcome equals the one for a store from which the order is absent. -/
theorem cross_tenant_access_is_not_found
    (orderId ridA : Nat) (newStatus : String) (db : Db)
    (hval : validStatuses.contains newStatus = true)
    (hten : ∀ o ∈ db.orders, o.id = orderId → o.restaurantId ≠ ridA) :
    updateOrderStatus orderId ridA newStatus db = .error .notFound ∧
    sendReadyNotification orderId ridA db = .error .notFound ∧
    dbAfterUpdateStatus orderId ridA newStatus db = db ∧
    dbAfterNotify orderId ridA db = db ∧
    updateOrderStatus orderId ridA newStatus
      { db with orders := db.orders.filter fun o => !(o.id == orderId) } =
      .error .notFound := by
  have hfind : db.orders.find? (fun o => o.id == orderId && o.restaurantId == ridA) = none := by
    rw [List.find?_eq_none]
    intro o ho
    simp only [Bool.and_eq_true, beq_iff_eq, not_and]
    intro hid
    exact hten o ho hid
  have hfind2 : (db.orders.filter fun o => !(o.id == orderId)).find?
      (fun o => o.id == orderId && o.restaurantId == ridA) = none := by
    rw [List.find?_eq_none]
    intro o ho
    have := (List.mem_filter.mp ho).2
    simp only [Bool.not_eq_true', beq_eq_false_iff_ne] at this
    simp [this]
  have h1 : updateOrderStatus orderId ridA newStatus db = .error .notFound := by
    unfold updateOrderStatus
    rw [hval]
    simp [hfind]
  have h2 : sendReadyNotification orderId ridA db = .error .notFound := by
    unfold sendReadyNotification
    simp [hfind]
  refine ⟨h1, h2, ?_, ?_, ?_⟩
  · unfold dbAfterUpdateStatus
    rw [h1]
  · unfold dbAfterNotify
    rw [h2]
  · unfold updateOrderStatus
    rw [hval]
    simp [hfind2]

/-- An order that belongs to tenant 2. -/
def orderTenantB : Server.Order :=
  { id := 7, restaurantId := 2, customerId := 5, orderNumber := "ORD0001#",
    orderDate := "2026-02-03", status := "ready", selections := [selA, selA],
    snackMeal := none, totals := totalsA,
    macroTargets := { proteinGrams := none, carbsGrams := none }, notes := "" }

def dbCross : Db :=
  { users := [cust1], subscriptions := [], orders := [orderTenantB], notifications := [] }

/-- Witness for C4: order 7 belongs to tenant 2; tenant 1's status update
and notification calls on it both yield `notFound` and leave the store
untouched. -/
theorem cross_tenant_access_is_not_found_witness :
    validStatuses.contains "preparing" = true ∧
    (∀ o ∈ dbCross.orders, o.id = 7 → o.restaurantId ≠ 1) ∧
    updateOrderStatus 7 1 "preparing" dbCross = .error .notFound ∧
    sendReadyNotification 7 1 dbCross = .error .notFound ∧
    dbAfterUpdateStatus 7 1 "preparing" dbCross = dbCross ∧
    dbAfterNotify 7 1 dbCross = dbCross :=
  ⟨by decide, by decide,
    (cross_tenant_access_is_not_found 7 1 "preparing" dbCross (by decide) (by decide)).1,
    (cross_tenant_access_is_not_found 7 1 "preparing" dbCross (by decide) (by decide)).2.1,
    (cross_tenant_access_is_not_found 7 1 "preparing" dbCross (by decide) (by decide)).2.2.1,
    (cross_tenant_access_is_not_found 7 1 "preparing" dbCross (by decide) (by decide)).2.2.2.1⟩

/-- C10: the persisted `orderDate` is the server-computed current UTC date
(`new Date().toISOString().split("T")[0]`, modelled by `today`); the
`orderDate` field of the request body has no effect on the result, so a
customer can only create an order for the current day. -/
theorem createOrder_orderDate_is_server_today
    (customerId restaurantId : Nat) (orderData : OrderData) (x : Option String)
    (today : String) (db : Db) :
    createOrder customerId restaurantId { orderData with orderDate := x } today db =
      createOrder customerId restaurantId orderData today db ∧
    (createOrder customerId restaurantId orderData today db).map (fun p => p.1.orderDate) =
      (createOrder customerId restaurantId orderData today db).map (fun _ => today) := by
  constructor
  · rfl
  · cases hu : db.users.find? (fun u =>
        u.id == customerId && u.restaurantId == restaurantId && u.role == "customer") with
    | none =>
        simp only [createOrder, hu]
        rfl
    | some u =>
        simp only [createOrder, hu]
        rfl

/-- C3: `sendReadyNotification` is idempotent per order.  Starting from a
store with no `(orderId, order_ready)` notification, a successful call
returns `alreadyNotified: false` and leaves exactly one such notification;
a second call on the resulting store returns `alreadyNotified: true` with
the same notification and writes nothing (the store is returned unchanged). -/
theorem notifyReady_idempotent
    (orderId restaurantId : Nat) (db : Db) (r1 : NotifyResult) (db1 : Db)
    (h0 : readyNotifCount orderId db = 0)
    (h1 : sendReadyNotification orderId restaurantId db = .ok (r1, db1)) :
    r1.alreadyNotified = false ∧
    readyNotifCount orderId db1 = 1 ∧
    sendReadyNotification orderId restaurantId db1 =
      .ok ({ alreadyNotified := true, notification := r1.notification }, db1) := by
  have hfe : db.notifications.filter
      (fun n => n.orderId == orderId && n.type == "order_ready") = [] :=
    List.length_eq_zero.mp h0
  unfold sendReadyNotification at h1
  cases horder : db.orders.find? (fun o => o.id == orderId && o.restaurantId == restaurantId) with
  | none =>
      rw [horder] at h1
      exact absurd h1 (by simp)
  | some order =>
      simp only [horder] at h1
      cases hnot : db.notifications.find? (fun n =>
          n.orderId == orderId && n.customerId == order.customerId
            && n.type == "order_ready") with
      | some existing =>
          exfalso
          have hmem := List.mem_of_find?_eq_some hnot
          have hp := List.find?_some hnot
          have hcontra := List.filter_eq_nil_iff.mp hfe existing hmem
          simp only [Bool.and_eq_true, beq_iff_eq] at hp hcontra
          exact hcontra ⟨hp.1.1, hp.2⟩
      | none =>
          simp only [hnot, Except.ok.injEq, Prod.mk.injEq] at h1
          obtain ⟨hr, hdb⟩ := h1
          subst hr
          subst hdb
          refine ⟨rfl, ?_, ?_⟩
          · unfold readyNotifCount
            simp [List.filter_append, hfe]
          · simp [sendReadyNotification, horder, hnot]

/-- An order in state `ready`, eligible for a notification. -/
def orderReady : Server.Order :=
  { id := 3, restaurantId := 1, customerId := 1, orderNumber := "ORD0001#",
    orderDate := "2026-02-03", status := "ready", selections := [selA, selA],
    snackMeal := none, totals := totalsA,
    macroTargets := { proteinGrams := none, carbsGrams := none }, notes := "" }

def dbC3 : Db :=
  { users := [cust1], subscriptions := [sub1], orders := [orderReady], notifications := [] }

/-- The notification the first `sendReadyNotification` call creates. -/
def notifC3 : Notification :=
  { id := 1, restaurantId := 1, customerId := 1, orderId := 3, type := "order_ready",
    message := "طلبك ORD0001# جاهز للاستلام! 🎉", isRead := false }

def dbC3After : Db := { dbC3 with notifications := [notifC3] }

/-- Witness for C3 at a concrete store: the first call creates `notifC3`
and the second call answers `alreadyNotified: true` without writing. -/
theorem notifyReady_idempotent_witness :
    readyNotifCount 3 dbC3 = 0 ∧
    sendReadyNotification 3 1 dbC3 =
      .ok ({ alreadyNotified := false, notification := notifC3 }, dbC3After) ∧
    (({ alreadyNotified := false, notification := notifC3 } : NotifyResult).alreadyNotified
        = false ∧
      readyNotifCount 3 dbC3After = 1 ∧
      sendReadyNotification 3 1 dbC3After =
        .ok ({ alreadyNotified := true, notification := notifC3 }, dbC3After)) :=
  ⟨by decide, by rfl,
    notifyReady_idempotent 3 1 dbC3
      { alreadyNotified := false, notification := notifC3 } dbC3After
      (by decide) (by rfl)⟩

end ServerTheorems
